import Mathlib

/-!
Shallow embedding of `src/snowflake-data-diff.py` (a Streamlit dashboard that
resolves two Snowflake tables and classifies the rows of a materialized diff
result into three buckets).

Two components are embedded:

* the Table Resolver `load_sf_db_list` (source lines 52-88): four cascading
  catalog queries (databases, schemas, tables, columns), each checked for
  emptiness, each loaded into a pandas `DataFrame` with a fixed column-name
  list, with a `selectbox` choice after each; any exception is caught and the
  sentinel `(None, None, None)` is returned together with one user-facing
  error message;

* the Show Table Diff button handler (source lines 120-171): a guard on the
  truthiness of both resolved qualified names, the diff-engine invocation and
  materialization read-back, and the partition of the materialized rows into
  the three buckets `not_in_target` / `not_in_source` / `value_mismatch`
  by the two boolean flags `is_exclusive_a` / `is_exclusive_b`
  (source lines 131-133).

External collaborators (the warehouse catalog, the Streamlit selectboxes, the
data_diff engine together with the read-back of the materialized table) are
modelled as oracle parameters.  Machine-level details (the pandas error
message text) are approximated; everything the claims depend on (which step
raises, which kind of error, the emptiness checks, the fixed column-name
lists, the user-facing message text built from the exception) follows the
source line by line.
-/

set_option autoImplicit false

/-- A raw row returned by `run_query_sf` (a tuple of column values). -/
abbrev Row := List String

/-- The embedding of a pandas `DataFrame` built from a list of equal-width
rows and a list of column names. -/
structure DataFrame where
  columns : List String
  rows : List Row
deriving Repr, DecidableEq

/-- The kinds of exception the Resolver's `try` block can raise:
`ValueError` on an empty catalog result (source lines 55-56, 62-63, 69-70,
77-78), the pandas `ValueError` when the row width does not match the fixed
column-name list (lines 58, 65, 72, 79), and the `TypeError` raised when a
`None` selection is concatenated into the next query string.  Each carries
the message text interpolated into the user-facing error. -/
inductive ResolverError where
  | emptyResult (msg : String)
  | shapeMismatch (msg : String)
  | typeError (msg : String)
deriving Repr, DecidableEq

/-- The message text of a Resolver exception (what `str(e)` yields). -/
def ResolverError.msg : ResolverError → String
  | .emptyResult m => m
  | .shapeMismatch m => m
  | .typeError m => m

/-- `pd.DataFrame(data, columns=cols)`: succeeds when every row has exactly
`cols.length` values, otherwise raises a `ValueError` about the column
count (the shape-mismatch case). -/
def mkDataFrame (data : List Row) (cols : List String) : Except ResolverError DataFrame :=
  if data.all (fun r => r.length == cols.length) then
    .ok ⟨cols, data⟩
  else
    .error (.shapeMismatch (toString cols.length ++ " columns passed, passed data had " ++
      toString (data.headD []).length ++ " columns"))

/-- `df[name]`: the values of the named column (the source only accesses
names present in the fixed column lists). -/
def DataFrame.col (df : DataFrame) (name : String) : List String :=
  match df.columns.findIdx? (fun c => c == name) with
  | some i => df.rows.map (fun r => r.getD i "")
  | none => []

/-- Column names of the database-listing DataFrame (source line 58).  The
query on line 54 selects four columns, but the DataFrame is built with these
FIVE names, `UNKNOWN_COLUMN` included. -/
def dbCols : List String :=
  ["DATABASE_NAME", "CREATED", "DATABASE_OWNER", "COMMENT", "UNKNOWN_COLUMN"]

/-- Column names of the schema-listing DataFrame (source line 65). -/
def schemaCols : List String :=
  ["created_on", "name", "kind", "database_name", "SCHEMA_NAME"]

/-- Column names of the table-listing DataFrame (source line 72). -/
def tableCols : List String :=
  ["created_on", "name", "kind", "database_name", "SCHEMA_NAME"]

/-- Column names of the column-listing DataFrame (source line 79). -/
def columnCols : List String :=
  ["table_name", "schema_name", "column_name", "data_type", "null?", "default",
   "kind", "expression", "comment", "database_name", "autoincrement"]

/-- The warehouse catalog oracle: the result sets of the four
catalog-introspection queries run by the Resolver, the later ones as
functions of the selections interpolated into the query text. -/
structure Catalog where
  dbQuery : List Row
  schemaQuery : String → List Row
  tableQuery : String → String → List Row
  columnQuery : String → String → String → List Row

/-- The user's `st.selectbox` choices: each is handed the option values shown
and returns the selected one (`none` models Streamlit's `None` return for an
empty option sequence). -/
structure Choices where
  pickDb : List String → Option String
  pickSchema : List String → Option String
  pickTable : List String → Option String
  pickKey : List String → Option String

/-- The body of `load_sf_db_list`'s `try` block (source lines 54-83): the
four steps in order — emptiness check, DataFrame construction, selection —
ending in `(full_qual_name, key_column_name, tuple(column_list_df['column_name']))`.
A `none` database/schema/table selection raises a `TypeError` where the
source concatenates it into the next query string; the key selection is
returned as-is (the source never concatenates it). -/
def load_body (cat : Catalog) (ch : Choices) :
    Except ResolverError (String × Option String × List String) :=
  if cat.dbQuery = [] then .error (.emptyResult "No databases found.")
  else match mkDataFrame cat.dbQuery dbCols with
  | .error e => .error e
  | .ok db_list_df =>
    match ch.pickDb (db_list_df.col "DATABASE_NAME") with
    | none => .error (.typeError "can only concatenate str (not \"NoneType\") to str")
    | some db_name =>
      if cat.schemaQuery db_name = [] then .error (.emptyResult "No schemas found.")
      else match mkDataFrame (cat.schemaQuery db_name) schemaCols with
      | .error e => .error e
      | .ok schema_list_df =>
        match ch.pickSchema (schema_list_df.col "name") with
        | none => .error (.typeError "can only concatenate str (not \"NoneType\") to str")
        | some schema_name =>
          if cat.tableQuery db_name schema_name = [] then
            .error (.emptyResult "No tables found.")
          else match mkDataFrame (cat.tableQuery db_name schema_name) tableCols with
          | .error e => .error e
          | .ok table_list_df =>
            match ch.pickTable (table_list_df.col "name") with
            | none => .error (.typeError "can only concatenate str (not \"NoneType\") to str")
            | some table_name =>
              if cat.columnQuery db_name schema_name table_name = [] then
                .error (.emptyResult "No columns found.")
              else match mkDataFrame (cat.columnQuery db_name schema_name table_name) columnCols with
              | .error e => .error e
              | .ok column_list_df =>
                let key_column_name := ch.pickKey (column_list_df.col "column_name")
                .ok (db_name ++ "." ++ schema_name ++ "." ++ table_name,
                     key_column_name,
                     column_list_df.col "column_name")

/-- `load_sf_db_list` (source lines 52-88): on success the triple
`(full_qual_name, key_column_name, column list)` and no error message; on any
exception the sentinel `(None, None, None)` plus the single `st.error`
message built on line 87. -/
def load_sf_db_list (cat : Catalog) (ch : Choices) :
    (Option String × Option String × Option (List String)) × List String :=
  match load_body cat ch with
  | .ok (q, k, cols) => ((some q, k, some cols), [])
  | .error e => ((none, none, none), ["Error loading database/schema/table list: " ++ e.msg])

/-- One row of the materialized diff table read back on source line 130: the
two exclusivity flags plus the remaining (`_a`/`_b`-suffixed) column values. -/
structure DiffRow where
  is_exclusive_a : Bool
  is_exclusive_b : Bool
  values : List String
deriving Repr, DecidableEq

/-- `not_in_target` (source line 131): rows with `is_exclusive_a` set and
`is_exclusive_b` clear — the MissingInTarget bucket. -/
def not_in_target (diff_op : List DiffRow) : List DiffRow :=
  diff_op.filter (fun r => r.is_exclusive_a && !r.is_exclusive_b)

/-- `not_in_source` (source line 132): rows with `is_exclusive_a` clear and
`is_exclusive_b` set — the MissingInSource bucket. -/
def not_in_source (diff_op : List DiffRow) : List DiffRow :=
  diff_op.filter (fun r => !r.is_exclusive_a && r.is_exclusive_b)

/-- `value_mismatch` (source line 133): rows with both flags clear — the
ValueMismatch bucket. -/
def value_mismatch (diff_op : List DiffRow) : List DiffRow :=
  diff_op.filter (fun r => !r.is_exclusive_a && !r.is_exclusive_b)

/-- Truthiness of an optional string, as Python evaluates it in
`if full_qual_source_name and full_qual_target_name:` (source line 122):
`None` and the empty string are falsy. -/
def truthy : Option String → Bool
  | none => false
  | some s => !s.isEmpty

/-- The source's line 123 references the name `SNOWFLAKE_CONN_INFO`, which is
defined nowhere in the module (no import brings it in): evaluating it raises
`NameError`.  The embedding records this as an absent value. -/
def SNOWFLAKE_CONN_INFO? : Option Unit := none

/-- The external diff engine together with the materialization read-back
(source lines 123-130): given the source qualified name, source key column,
target qualified name, target key column, the extra-column list, and the
materialize-to table name, it either yields the rows read back from the
materialized table or raises (any exception from `connect_to_table`,
`diff_tables` draining, or `pd.read_sql_query`). -/
abbrev Engine := String → Option String → String → Option String →
  Option (List String) → String → Except String (List DiffRow)

/-- The outcome of one press of the Show Table Diff button (source lines
120-171): how many times the diff engine was invoked, the materialize-to
table name that was computed (line 125), the three bucket datasets and their
counts if they were displayed, the `st.error` messages emitted, and whether
the chart/download output was rendered. -/
structure HandlerResult where
  engine_calls : Nat
  materialize_table_name : Option String
  buckets : Option (List DiffRow × List DiffRow × List DiffRow)
  counts : Option (Nat × Nat × Nat)
  errors : List String
  charts_shown : Bool
deriving Repr, DecidableEq

/-- The Show Table Diff button handler (source lines 120-171).  Inside the
`try`: if both qualified names are truthy, the source evaluates
`connect_to_table(SNOWFLAKE_CONN_INFO, ...)` — `SNOWFLAKE_CONN_INFO` being
undefined, this raises `NameError` before any engine work, and the `except`
block (lines 169-171) emits the single error message; were the name defined,
the handler would compute `materialize_table_name`, run the engine, read the
materialized table back and display the three buckets with their counts.  If
either qualified name is falsy, the `else` branch (lines 167-168) emits the
selection error and nothing is invoked. -/
def show_table_diff (eng : Engine) (src tgt srcKey tgtKey : Option String)
    (srcCols : Option (List String)) : HandlerResult :=
  if truthy src && truthy tgt then
    match SNOWFLAKE_CONN_INFO? with
    | none =>
        { engine_calls := 0, materialize_table_name := none, buckets := none, counts := none,
          errors := ["Error calculating table differences. Please check your selections and try again."],
          charts_shown := false }
    | some _ =>
        let s := src.getD ""
        let t := tgt.getD ""
        let materialize_table_name := t ++ "_DIFF"
        match eng s srcKey t tgtKey srcCols materialize_table_name with
        | .ok diff_op =>
            { engine_calls := 1, materialize_table_name := some materialize_table_name,
              buckets := some (not_in_target diff_op, not_in_source diff_op, value_mismatch diff_op),
              counts := some ((not_in_target diff_op).length, (not_in_source diff_op).length,
                (value_mismatch diff_op).length),
              errors := [], charts_shown := true }
        | .error _ =>
            { engine_calls := 1, materialize_table_name := some materialize_table_name,
              buckets := none, counts := none,
              errors := ["Error calculating table differences. Please check your selections and try again."],
              charts_shown := false }
  else
    { engine_calls := 0, materialize_table_name := none, buckets := none, counts := none,
      errors := ["Source and Target tables must be selected before showing table diff."],
      charts_shown := false }

/-- A catalog result set in the shape a Resolver step expects: non-empty,
with every row exactly `n` values wide (so the `pd.DataFrame` construction
with that step's `n` column names succeeds). -/
def goodShape (data : List Row) (n : Nat) : Prop :=
  data ≠ [] ∧ ∀ r ∈ data, r.length = n

/-- A concrete catalog on which every Resolver step succeeds: one database
`D1` (five values wide, as line 58's column-name list demands), one schema
`S1`, one table `T1`, one column `ID`. -/
def c3Catalog : Catalog :=
  ⟨[["D1", "2024-01-01", "OWNER", "", ""]],
   fun _ => [["2024-01-01", "S1", "", "D1", "S1"]],
   fun _ _ => [["2024-01-01", "T1", "TABLE", "D1", "S1"]],
   fun _ _ _ => [["T1", "S1", "ID", "NUMBER", "false", "", "COLUMN", "", "", "D1", ""]]⟩

/-- Concrete user choices: database `D1`, schema `S1`, table `T1`, key `ID`. -/
def c3Choices : Choices :=
  ⟨fun _ => some "D1", fun _ => some "S1", fun _ => some "T1", fun _ => some "ID"⟩

/-- A catalog whose database listing is empty. -/
def emptyCatalog : Catalog :=
  ⟨[], fun _ => [], fun _ _ => [], fun _ _ _ => []⟩

/-- A concrete catalog whose first three steps succeed but whose
column-listing query returns zero rows. -/
def c10Catalog : Catalog :=
  ⟨[["D1", "2024-01-01", "OWNER", "", ""]],
   fun _ => [["2024-01-01", "S1", "", "D1", "S1"]],
   fun _ _ => [["2024-01-01", "T1", "TABLE", "D1", "S1"]],
   fun _ _ _ => []⟩

/-- A concrete catalog whose database listing is non-empty with rows exactly
FOUR values wide — the width the query on source line 54 actually selects
(DATABASE_NAME, CREATED_TIME, DATABASE_OWNER, COMMENT). -/
def fourColCatalog : Catalog :=
  ⟨[["D1", "2024-01-01", "OWNER", ""]],
   fun _ => [["2024-01-01", "S1", "", "D1", "S1"]],
   fun _ _ => [["2024-01-01", "T1", "TABLE", "D1", "S1"]],
   fun _ _ _ => [["T1", "S1", "ID", "NUMBER", "false", "", "COLUMN", "", "", "D1", ""]]⟩

/-- Concrete materialized result used to instantiate `C1_bucket_partition`. -/
def c1Rows : List DiffRow :=
  [⟨true, false, ["k1"]⟩, ⟨false, true, ["k2"]⟩, ⟨false, false, ["k3"]⟩]

/-- The four-row materialized result of the C2 example, in order:
`(is_exclusive_a, is_exclusive_b)` = (T,F), (F,T), (F,F), (F,F). -/
def c2Rows : List DiffRow :=
  [⟨true, false, []⟩, ⟨false, true, []⟩, ⟨false, false, []⟩, ⟨false, false, []⟩]

/-- A helper: the three bucket lengths always sum to the length of the whole
result when no row has both flags set. -/
theorem bucket_lengths_sum (l : List DiffRow)
    (h : ∀ r ∈ l, ¬(r.is_exclusive_a = true ∧ r.is_exclusive_b = true)) :
    (not_in_target l).length + (not_in_source l).length + (value_mismatch l).length
      = l.length := by
  induction l with
  | nil => rfl
  | cons x xs ih =>
    have hx := h x (List.mem_cons_self x xs)
    have ih' := ih (fun r hr => h r (List.mem_cons_of_mem x hr))
    simp only [not_in_target, not_in_source, value_mismatch] at ih' ⊢
    cases ha : x.is_exclusive_a <;> cases hb : x.is_exclusive_b
    · simp [List.filter_cons, ha, hb]; omega
    · simp [List.filter_cons, ha, hb]; omega
    · simp [List.filter_cons, ha, hb]; omega
    · exact absurd ⟨ha, hb⟩ hx

/-- C1: assuming the diff engine never emits a row with both exclusivity
flags set, every row of the materialized result is claimed by exactly one of
the three buckets (pairwise disjointness), and the three bucket sizes sum to
the size of the whole result (the union is the full result). -/
theorem C1_bucket_partition (diff_op : List DiffRow)
    (h : ∀ r ∈ diff_op, ¬(r.is_exclusive_a = true ∧ r.is_exclusive_b = true)) :
    (∀ r ∈ diff_op,
      (r ∈ not_in_target diff_op ∧ r ∉ not_in_source diff_op ∧ r ∉ value_mismatch diff_op) ∨
      (r ∉ not_in_target diff_op ∧ r ∈ not_in_source diff_op ∧ r ∉ value_mismatch diff_op) ∨
      (r ∉ not_in_target diff_op ∧ r ∉ not_in_source diff_op ∧ r ∈ value_mismatch diff_op)) ∧
    (not_in_target diff_op).length + (not_in_source diff_op).length
      + (value_mismatch diff_op).length = diff_op.length := by
  constructor
  · intro r hr
    have hrr := h r hr
    cases ha : r.is_exclusive_a <;> cases hb : r.is_exclusive_b
    · right; right
      simp [not_in_target, not_in_source, value_mismatch, List.mem_filter, hr, ha, hb]
    · right; left
      simp [not_in_target, not_in_source, value_mismatch, List.mem_filter, hr, ha, hb]
    · left
      simp [not_in_target, not_in_source, value_mismatch, List.mem_filter, hr, ha, hb]
    · exact absurd ⟨ha, hb⟩ hrr
  · exact bucket_lengths_sum diff_op h

/-- Witness for C1 at a concrete three-row materialized result. -/
theorem C1_bucket_partition_witness :
    (∀ r ∈ c1Rows,
      (r ∈ not_in_target c1Rows ∧ r ∉ not_in_source c1Rows ∧ r ∉ value_mismatch c1Rows) ∨
      (r ∉ not_in_target c1Rows ∧ r ∈ not_in_source c1Rows ∧ r ∉ value_mismatch c1Rows) ∨
      (r ∉ not_in_target c1Rows ∧ r ∉ not_in_source c1Rows ∧ r ∈ value_mismatch c1Rows)) ∧
    (not_in_target c1Rows).length + (not_in_source c1Rows).length
      + (value_mismatch c1Rows).length = c1Rows.length :=
  C1_bucket_partition c1Rows (by decide)

/-- C2: on the four-row result with flag pairs (T,F), (F,T), (F,F), (F,F) the
bucket counts are MissingInTarget = 1, MissingInSource = 1, ValueMismatch = 2. -/
theorem C2_example_counts :
    (not_in_target c2Rows).length = 1 ∧
    (not_in_source c2Rows).length = 1 ∧
    (value_mismatch c2Rows).length = 2 := by
  decide

/-- C7: whenever the diff action runs with at least one table resolution
unresolved (its qualified name falsy), the handler takes the `else` branch:
it emits exactly the user-facing selection error, never calls the diff
engine, materializes nothing, reads nothing back, and displays nothing; so
the engine could only ever be invoked when both resolutions succeeded. -/
theorem C7_precondition_guard (eng : Engine) (src tgt srcKey tgtKey : Option String)
    (srcCols : Option (List String))
    (h : ¬(truthy src = true ∧ truthy tgt = true)) :
    show_table_diff eng src tgt srcKey tgtKey srcCols =
      { engine_calls := 0, materialize_table_name := none, buckets := none, counts := none,
        errors := ["Source and Target tables must be selected before showing table diff."],
        charts_shown := false } := by
  have hc : (truthy src && truthy tgt) = false := by
    cases hs : truthy src <;> cases ht : truthy tgt <;> simp_all
  simp [show_table_diff, hc]

/-- Witness for C7: an unresolved source (`None`) with a resolved target. -/
theorem C7_precondition_guard_witness :
    ¬(truthy none = true ∧ truthy (some "D.E.F") = true) ∧
    show_table_diff (fun _ _ _ _ _ _ => .ok []) none (some "D.E.F") none none none =
      { engine_calls := 0, materialize_table_name := none, buckets := none, counts := none,
        errors := ["Source and Target tables must be selected before showing table diff."],
        charts_shown := false } :=
  ⟨by decide,
   C7_precondition_guard (fun _ _ _ _ _ _ => .ok []) none (some "D.E.F") none none none
     (by decide)⟩

/-- C8 (code bug): the source line 123 evaluates the undefined name
`SNOWFLAKE_CONN_INFO`, raising `NameError` before `materialize_table_name`
is even computed, so an invocation with both tables resolved produces only
the caught-exception error message: nothing is materialized under
the `_DIFF`-suffixed target name and no bucket counts are produced, at this
invocation and equally at any re-invocation. -/
theorem C8_code_bug_no_materialization :
    show_table_diff (fun _ _ _ _ _ _ => .ok c2Rows) (some "A.B.C") (some "D.E.F")
        (some "ID") (some "ID") (some ["ID"]) =
      { engine_calls := 0, materialize_table_name := none, buckets := none, counts := none,
        errors := ["Error calculating table differences. Please check your selections and try again."],
        charts_shown := false } := by
  decide

/-- C9: every press of the Show Table Diff button either fully succeeds (no
error message, bucket datasets and counts present, charts and downloads
rendered) or reports failure with exactly one user-facing error message and
no bucket dataset, no counts, and no chart/download output; any exception
inside the `try` block is caught there, so no partial output is possible. -/
theorem C9_no_partial_output (eng : Engine) (src tgt srcKey tgtKey : Option String)
    (srcCols : Option (List String)) :
    ((∃ m, (show_table_diff eng src tgt srcKey tgtKey srcCols).errors = [m]) ∧
      (show_table_diff eng src tgt srcKey tgtKey srcCols).counts = none ∧
      (show_table_diff eng src tgt srcKey tgtKey srcCols).buckets = none ∧
      (show_table_diff eng src tgt srcKey tgtKey srcCols).charts_shown = false) ∨
    ((show_table_diff eng src tgt srcKey tgtKey srcCols).errors = [] ∧
      (show_table_diff eng src tgt srcKey tgtKey srcCols).counts ≠ none ∧
      (show_table_diff eng src tgt srcKey tgtKey srcCols).buckets ≠ none ∧
      (show_table_diff eng src tgt srcKey tgtKey srcCols).charts_shown = true) := by
  cases hc : truthy src && truthy tgt <;>
    simp [show_table_diff, SNOWFLAKE_CONN_INFO?, hc]

/-- A helper: `pd.DataFrame` succeeds on rows that all match the column-name
list's width. -/
theorem mkDataFrame_ok (data : List Row) (cols : List String)
    (h : ∀ r ∈ data, r.length = cols.length) :
    mkDataFrame data cols = .ok ⟨cols, data⟩ := by
  unfold mkDataFrame
  rw [if_pos]
  exact List.all_eq_true.mpr fun r hr => by simp [h r hr]

/-- A helper: `pd.DataFrame` raises the shape-mismatch `ValueError` as soon
as some row's width differs from the column-name list's. -/
theorem mkDataFrame_err (data : List Row) (cols : List String)
    (h : ∃ r ∈ data, r.length ≠ cols.length) :
    ∃ m, mkDataFrame data cols = .error (.shapeMismatch m) := by
  unfold mkDataFrame
  rw [if_neg]
  · exact ⟨_, rfl⟩
  · intro hall
    obtain ⟨r, hr, hne⟩ := h
    have hwr := List.all_eq_true.mp hall r hr
    simp only [beq_iff_eq] at hwr
    exact hne hwr

/-- A helper: whenever the `try` body raises, `load_sf_db_list` returns the
sentinel triple together with the one user-facing message of line 87. -/
theorem load_sentinel (cat : Catalog) (ch : Choices) (e : ResolverError)
    (h : load_body cat ch = .error e) :
    (load_sf_db_list cat ch).1 = (none, none, none) ∧
    ∃ m, (load_sf_db_list cat ch).2 = ["Error loading database/schema/table list: " ++ m] := by
  unfold load_sf_db_list
  rw [h]
  exact ⟨rfl, e.msg, rfl⟩

/-- C3: when all four catalog queries return non-empty results of the widths
the Resolver's DataFrames expect and the user selects database `d`, schema
`s` and table `t`, the Resolver succeeds (no error message) and the returned
qualified name is exactly `d ++ "." ++ s ++ "." ++ t`. -/
theorem C3_qualified_name (cat : Catalog) (ch : Choices) (d s t k : String)
    (hd : ch.pickDb = fun _ => some d)
    (hs : ch.pickSchema = fun _ => some s)
    (ht : ch.pickTable = fun _ => some t)
    (hk : ch.pickKey = fun _ => some k)
    (h1 : goodShape cat.dbQuery 5)
    (h2 : goodShape (cat.schemaQuery d) 5)
    (h3 : goodShape (cat.tableQuery d s) 5)
    (h4 : goodShape (cat.columnQuery d s t) 11) :
    (load_sf_db_list cat ch).1.1 = some (d ++ "." ++ s ++ "." ++ t) ∧
    (load_sf_db_list cat ch).2 = [] := by
  have e1 : mkDataFrame cat.dbQuery dbCols = .ok ⟨dbCols, cat.dbQuery⟩ :=
    mkDataFrame_ok _ _ (fun r hr => by simpa [dbCols] using h1.2 r hr)
  have e2 : mkDataFrame (cat.schemaQuery d) schemaCols = .ok ⟨schemaCols, cat.schemaQuery d⟩ :=
    mkDataFrame_ok _ _ (fun r hr => by simpa [schemaCols] using h2.2 r hr)
  have e3 : mkDataFrame (cat.tableQuery d s) tableCols = .ok ⟨tableCols, cat.tableQuery d s⟩ :=
    mkDataFrame_ok _ _ (fun r hr => by simpa [tableCols] using h3.2 r hr)
  have e4 : mkDataFrame (cat.columnQuery d s t) columnCols =
      .ok ⟨columnCols, cat.columnQuery d s t⟩ :=
    mkDataFrame_ok _ _ (fun r hr => by simpa [columnCols] using h4.2 r hr)
  have hbody : load_body cat ch = .ok (d ++ "." ++ s ++ "." ++ t, some k,
      DataFrame.col ⟨columnCols, cat.columnQuery d s t⟩ "column_name") := by
    simp [load_body, h1.1, h2.1, h3.1, h4.1, e1, e2, e3, e4, hd, hs, ht, hk]
  simp [load_sf_db_list, hbody]

/-- Witness for C3: on the concrete one-entry catalog the Resolver returns
qualified name `D1.S1.T1` and no error message. -/
theorem C3_qualified_name_witness :
    (load_sf_db_list c3Catalog c3Choices).1.1 = some ("D1" ++ "." ++ "S1" ++ "." ++ "T1") ∧
    (load_sf_db_list c3Catalog c3Choices).2 = [] :=
  C3_qualified_name c3Catalog c3Choices "D1" "S1" "T1" "ID" rfl rfl rfl rfl
    ⟨by decide, by decide⟩ ⟨by decide, by decide⟩ ⟨by decide, by decide⟩ ⟨by decide, by decide⟩

/-- C4: if the catalog query of any of the four steps the run reaches comes
back empty, the Resolver returns the sentinel `(None, None, None)` — no
exception escapes, and the single user-facing message of line 87 is
emitted. -/
theorem C4_empty_result_sentinel (cat : Catalog) (ch : Choices) (d s t : String)
    (hd : ch.pickDb = fun _ => some d)
    (hs : ch.pickSchema = fun _ => some s)
    (ht : ch.pickTable = fun _ => some t)
    (hcase :
      cat.dbQuery = [] ∨
      (goodShape cat.dbQuery 5 ∧ cat.schemaQuery d = []) ∨
      (goodShape cat.dbQuery 5 ∧ goodShape (cat.schemaQuery d) 5 ∧
        cat.tableQuery d s = []) ∨
      (goodShape cat.dbQuery 5 ∧ goodShape (cat.schemaQuery d) 5 ∧
        goodShape (cat.tableQuery d s) 5 ∧ cat.columnQuery d s t = [])) :
    (load_sf_db_list cat ch).1 = (none, none, none) ∧
    ∃ m, (load_sf_db_list cat ch).2 = ["Error loading database/schema/table list: " ++ m] := by
  obtain h | ⟨g1, h⟩ | ⟨g1, g2, h⟩ | ⟨g1, g2, g3, h⟩ := hcase
  · exact load_sentinel cat ch (.emptyResult "No databases found.") (by simp [load_body, h])
  · have e1 : mkDataFrame cat.dbQuery dbCols = .ok ⟨dbCols, cat.dbQuery⟩ :=
      mkDataFrame_ok _ _ (fun r hr => by simpa [dbCols] using g1.2 r hr)
    exact load_sentinel cat ch (.emptyResult "No schemas found.")
      (by simp [load_body, g1.1, e1, hd, h])
  · have e1 : mkDataFrame cat.dbQuery dbCols = .ok ⟨dbCols, cat.dbQuery⟩ :=
      mkDataFrame_ok _ _ (fun r hr => by simpa [dbCols] using g1.2 r hr)
    have e2 : mkDataFrame (cat.schemaQuery d) schemaCols = .ok ⟨schemaCols, cat.schemaQuery d⟩ :=
      mkDataFrame_ok _ _ (fun r hr => by simpa [schemaCols] using g2.2 r hr)
    exact load_sentinel cat ch (.emptyResult "No tables found.")
      (by simp [load_body, g1.1, g2.1, e1, e2, hd, hs, h])
  · have e1 : mkDataFrame cat.dbQuery dbCols = .ok ⟨dbCols, cat.dbQuery⟩ :=
      mkDataFrame_ok _ _ (fun r hr => by simpa [dbCols] using g1.2 r hr)
    have e2 : mkDataFrame (cat.schemaQuery d) schemaCols = .ok ⟨schemaCols, cat.schemaQuery d⟩ :=
      mkDataFrame_ok _ _ (fun r hr => by simpa [schemaCols] using g2.2 r hr)
    have e3 : mkDataFrame (cat.tableQuery d s) tableCols = .ok ⟨tableCols, cat.tableQuery d s⟩ :=
      mkDataFrame_ok _ _ (fun r hr => by simpa [tableCols] using g3.2 r hr)
    exact load_sentinel cat ch (.emptyResult "No columns found.")
      (by simp [load_body, g1.1, g2.1, g3.1, e1, e2, e3, hd, hs, ht, h])

/-- Witness for C4: an empty database listing yields the sentinel triple and
the user-facing message. -/
theorem C4_empty_result_sentinel_witness :
    (load_sf_db_list emptyCatalog c3Choices).1 = (none, none, none) ∧
    ∃ m, (load_sf_db_list emptyCatalog c3Choices).2 =
      ["Error loading database/schema/table list: " ++ m] :=
  C4_empty_result_sentinel emptyCatalog c3Choices "D1" "S1" "T1" rfl rfl rfl (Or.inl rfl)

/-- C6: if the catalog query of any step the run reaches comes back
non-empty but with a row width different from that step's fixed column-name
list (5 for databases, 5 for schemas, 5 for tables, 11 for columns), the
`pd.DataFrame` construction raises, the exception is caught, and the
Resolver returns the sentinel `(None, None, None)` with the single
user-facing message — it does not crash. -/
theorem C6_shape_mismatch_sentinel (cat : Catalog) (ch : Choices) (d s t : String)
    (hd : ch.pickDb = fun _ => some d)
    (hs : ch.pickSchema = fun _ => some s)
    (ht : ch.pickTable = fun _ => some t)
    (hcase :
      (cat.dbQuery ≠ [] ∧ ∃ r ∈ cat.dbQuery, r.length ≠ 5) ∨
      (goodShape cat.dbQuery 5 ∧ cat.schemaQuery d ≠ [] ∧
        ∃ r ∈ cat.schemaQuery d, r.length ≠ 5) ∨
      (goodShape cat.dbQuery 5 ∧ goodShape (cat.schemaQuery d) 5 ∧
        cat.tableQuery d s ≠ [] ∧ ∃ r ∈ cat.tableQuery d s, r.length ≠ 5) ∨
      (goodShape cat.dbQuery 5 ∧ goodShape (cat.schemaQuery d) 5 ∧
        goodShape (cat.tableQuery d s) 5 ∧ cat.columnQuery d s t ≠ [] ∧
        ∃ r ∈ cat.columnQuery d s t, r.length ≠ 11)) :
    (load_sf_db_list cat ch).1 = (none, none, none) ∧
    ∃ m, (load_sf_db_list cat ch).2 = ["Error loading database/schema/table list: " ++ m] := by
  obtain ⟨hne, hbad⟩ | ⟨g1, hne, hbad⟩ | ⟨g1, g2, hne, hbad⟩ | ⟨g1, g2, g3, hne, hbad⟩ := hcase
  · obtain ⟨m, hmk⟩ := mkDataFrame_err cat.dbQuery dbCols (by simpa [dbCols] using hbad)
    exact load_sentinel cat ch (.shapeMismatch m) (by simp [load_body, hne, hmk])
  · have e1 : mkDataFrame cat.dbQuery dbCols = .ok ⟨dbCols, cat.dbQuery⟩ :=
      mkDataFrame_ok _ _ (fun r hr => by simpa [dbCols] using g1.2 r hr)
    obtain ⟨m, hmk⟩ := mkDataFrame_err (cat.schemaQuery d) schemaCols
      (by simpa [schemaCols] using hbad)
    exact load_sentinel cat ch (.shapeMismatch m)
      (by simp [load_body, g1.1, e1, hd, hne, hmk])
  · have e1 : mkDataFrame cat.dbQuery dbCols = .ok ⟨dbCols, cat.dbQuery⟩ :=
      mkDataFrame_ok _ _ (fun r hr => by simpa [dbCols] using g1.2 r hr)
    have e2 : mkDataFrame (cat.schemaQuery d) schemaCols = .ok ⟨schemaCols, cat.schemaQuery d⟩ :=
      mkDataFrame_ok _ _ (fun r hr => by simpa [schemaCols] using g2.2 r hr)
    obtain ⟨m, hmk⟩ := mkDataFrame_err (cat.tableQuery d s) tableCols
      (by simpa [tableCols] using hbad)
    exact load_sentinel cat ch (.shapeMismatch m)
      (by simp [load_body, g1.1, g2.1, e1, e2, hd, hs, hne, hmk])
  · have e1 : mkDataFrame cat.dbQuery dbCols = .ok ⟨dbCols, cat.dbQuery⟩ :=
      mkDataFrame_ok _ _ (fun r hr => by simpa [dbCols] using g1.2 r hr)
    have e2 : mkDataFrame (cat.schemaQuery d) schemaCols = .ok ⟨schemaCols, cat.schemaQuery d⟩ :=
      mkDataFrame_ok _ _ (fun r hr => by simpa [schemaCols] using g2.2 r hr)
    have e3 : mkDataFrame (cat.tableQuery d s) tableCols = .ok ⟨tableCols, cat.tableQuery d s⟩ :=
      mkDataFrame_ok _ _ (fun r hr => by simpa [tableCols] using g3.2 r hr)
    obtain ⟨m, hmk⟩ := mkDataFrame_err (cat.columnQuery d s t) columnCols
      (by simpa [columnCols] using hbad)
    exact load_sentinel cat ch (.shapeMismatch m)
      (by simp [load_body, g1.1, g2.1, g3.1, e1, e2, e3, hd, hs, ht, hne, hmk])

/-- Witness for C6: a four-value-wide database listing (the width the
query of line 54 actually produces) trips the shape check and yields the
sentinel. -/
theorem C6_shape_mismatch_sentinel_witness :
    (load_sf_db_list fourColCatalog c3Choices).1 = (none, none, none) ∧
    ∃ m, (load_sf_db_list fourColCatalog c3Choices).2 =
      ["Error loading database/schema/table list: " ++ m] :=
  C6_shape_mismatch_sentinel fourColCatalog c3Choices "D1" "S1" "T1" rfl rfl rfl
    (Or.inl ⟨by decide, ⟨["D1", "2024-01-01", "OWNER", ""], by decide, by decide⟩⟩)

/-- C10: when the run reaches the column-listing step and that query returns
zero rows, the exception raised is of the empty-result kind with message
`"No columns found."`, and the user-visible `st.error` text — the line 87
message — contains the text `"No columns found."`. -/
theorem C10_no_columns_found (cat : Catalog) (ch : Choices) (d s t : String)
    (hd : ch.pickDb = fun _ => some d)
    (hs : ch.pickSchema = fun _ => some s)
    (ht : ch.pickTable = fun _ => some t)
    (g1 : goodShape cat.dbQuery 5)
    (g2 : goodShape (cat.schemaQuery d) 5)
    (g3 : goodShape (cat.tableQuery d s) 5)
    (hempty : cat.columnQuery d s t = []) :
    load_body cat ch = .error (.emptyResult "No columns found.") ∧
    (load_sf_db_list cat ch).2 =
      ["Error loading database/schema/table list: No columns found."] ∧
    ∃ pre post, "Error loading database/schema/table list: No columns found." =
      pre ++ "No columns found." ++ post := by
  have e1 : mkDataFrame cat.dbQuery dbCols = .ok ⟨dbCols, cat.dbQuery⟩ :=
    mkDataFrame_ok _ _ (fun r hr => by simpa [dbCols] using g1.2 r hr)
  have e2 : mkDataFrame (cat.schemaQuery d) schemaCols = .ok ⟨schemaCols, cat.schemaQuery d⟩ :=
    mkDataFrame_ok _ _ (fun r hr => by simpa [schemaCols] using g2.2 r hr)
  have e3 : mkDataFrame (cat.tableQuery d s) tableCols = .ok ⟨tableCols, cat.tableQuery d s⟩ :=
    mkDataFrame_ok _ _ (fun r hr => by simpa [tableCols] using g3.2 r hr)
  have hbody : load_body cat ch = .error (.emptyResult "No columns found.") := by
    simp [load_body, g1.1, g2.1, g3.1, e1, e2, e3, hd, hs, ht, hempty]
  refine ⟨hbody, ?_, "Error loading database/schema/table list: ", "", by rfl⟩
  unfold load_sf_db_list
  rw [hbody]
  rfl

/-- Witness for C10: the concrete catalog whose column listing is empty. -/
theorem C10_no_columns_found_witness :
    load_body c10Catalog c3Choices = .error (.emptyResult "No columns found.") ∧
    (load_sf_db_list c10Catalog c3Choices).2 =
      ["Error loading database/schema/table list: No columns found."] ∧
    ∃ pre post, "Error loading database/schema/table list: No columns found." =
      pre ++ "No columns found." ++ post :=
  C10_no_columns_found c10Catalog c3Choices "D1" "S1" "T1" rfl rfl rfl
    ⟨by decide, by decide⟩ ⟨by decide, by decide⟩ ⟨by decide, by decide⟩ rfl

/-- C5 (code bug): the query of source line 54 selects exactly four columns
(DATABASE_NAME, CREATED_TIME, DATABASE_OWNER, COMMENT), yet line 58 builds
the DataFrame with FIVE column names (`UNKNOWN_COLUMN` appended), so a
non-empty database listing whose rows are the four-value-wide rows the
query itself produces trips pandas' shape check: resolution fails with the
shape-mismatch message instead of matching the expected shape as the claim
states. -/
theorem C5_code_bug_db_listing_width :
    load_sf_db_list fourColCatalog c3Choices =
      ((none, none, none),
       ["Error loading database/schema/table list: 5 columns passed, passed data had 4 columns"]) := by
  rfl
